import Mathlib

/-!
Shallow embedding of the Argos configuration-tree subsystem:
the simple Config Tree Items of `libargos/config/simplectis.py`
(StringCti, IntegerCti, BoolCti, ChoiceCti, ColorCti) and the
`ConfigItemDelegate` of `libargos/widgets/configtreeview.py`.

Python dynamic values are embedded as the inductive `PyVal`; Python
exceptions as `Except PyErr`.  The Qt classes the code leans on
(QColor, QLineEdit, QSpinBox, QCheckBox, QComboBox, QRegExpValidator)
are modelled by explicit Lean structures reproducing the documented Qt
behaviour the code depends on (hex colour parsing, `name()` formatting,
spin-box clamping, regular-expression validation).
-/

namespace Argos

/-- Python exception kinds raised by the embedded code. -/
inductive PyErr where
  | valueError (msg : String)
  | typeError (msg : String)
  | indexError (msg : String)
  | invalidInputError (msg : String)
  deriving Repr, DecidableEq

/-- Model of Qt's `QColor`: an RGBA quadruple plus a validity flag.
    An invalid colour (as returned by `QColor()` on an unparsable
    specification) carries `valid = false`. -/
structure QColor where
  valid : Bool
  r : Nat
  g : Nat
  b : Nat
  a : Nat
  deriving Repr, DecidableEq

/-- The invalid colour, `QColor().isValid() == False` (all components 0). -/
def QColor.invalid : QColor := ⟨false, 0, 0, 0, 0⟩

/-- Case-insensitive hexadecimal-digit test. -/
def isHexDigitChar (c : Char) : Bool :=
  c.isDigit || ('a' ≤ c && c ≤ 'f') || ('A' ≤ c && c ≤ 'F')

/-- Value of a single hexadecimal digit, case-insensitive; 0 on a
    non-hex character (callers guard with `isHexDigitChar`). -/
def hexVal (c : Char) : Nat :=
  if '0' ≤ c ∧ c ≤ '9' then c.toNat - '0'.toNat
  else if 'a' ≤ c ∧ c ≤ 'f' then c.toNat - 'a'.toNat + 10
  else if 'A' ≤ c ∧ c ≤ 'F' then c.toNat - 'A'.toNat + 10
  else 0

/-- Lowercase hexadecimal digit for a value below 16. -/
def hexDigitChar (n : Nat) : Char :=
  if n < 10 then Char.ofNat ('0'.toNat + n)
  else Char.ofNat ('a'.toNat + (n - 10))

/-- Two lowercase hexadecimal digits for a byte. -/
def hexByteChars (n : Nat) : List Char :=
  [hexDigitChar (n / 16), hexDigitChar (n % 16)]

/-- Value of a two-hex-digit pair. -/
def hexPairVal (hi lo : Char) : Nat := hexVal hi * 16 + hexVal lo

/-- Excerpt of Qt's colour-name table (SVG names: lookup is done on the
    lowercased name).  Stands in for the full table in `qcolor.cpp`. -/
def qtColorNames : List (String × (Nat × Nat × Nat)) :=
  [("black", (0, 0, 0)), ("white", (255, 255, 255)),
   ("red", (255, 0, 0)), ("green", (0, 128, 0)), ("blue", (0, 0, 255)),
   ("yellow", (255, 255, 0)), ("cyan", (0, 255, 255)),
   ("magenta", (255, 0, 255)), ("gray", (128, 128, 128)),
   ("darkgray", (169, 169, 169)), ("lightgray", (211, 211, 211)),
   ("orange", (255, 165, 0)), ("purple", (128, 0, 128)),
   ("brown", (165, 42, 42)), ("pink", (255, 192, 203)),
   ("lime", (0, 255, 0)), ("navy", (0, 0, 128)), ("teal", (0, 128, 128)),
   ("olive", (128, 128, 0)), ("maroon", (128, 0, 0)),
   ("silver", (192, 192, 192)), ("gold", (255, 215, 0))]

/-- Hex-form parsing of `#...` colour specifications
    (Qt's `get_hex_rgb`): 3, 6, 8, 9 or 12 hex digits after `#`. -/
def parseHexColor (digits : List Char) : QColor :=
  if ¬ digits.all isHexDigitChar then QColor.invalid
  else
    match digits with
    | [r, g, b] =>
        ⟨true, hexVal r * 17, hexVal g * 17, hexVal b * 17, 255⟩
    | [r1, r2, g1, g2, b1, b2] =>
        ⟨true, hexPairVal r1 r2, hexPairVal g1 g2, hexPairVal b1 b2, 255⟩
    | [a1, a2, r1, r2, g1, g2, b1, b2] =>
        ⟨true, hexPairVal r1 r2, hexPairVal g1 g2, hexPairVal b1 b2,
         hexPairVal a1 a2⟩
    | [r1, r2, _, g1, g2, _, b1, b2, _] =>
        -- 9 digits: Qt keeps the most significant byte of each component
        ⟨true, hexPairVal r1 r2, hexPairVal g1 g2, hexPairVal b1 b2, 255⟩
    | [r1, r2, _, _, g1, g2, _, _, b1, b2, _, _] =>
        ⟨true, hexPairVal r1 r2, hexPairVal g1 g2, hexPairVal b1 b2, 255⟩
    | _ => QColor.invalid

/-- Model of `QColor(name)` / `QColor.setNamedColor`: `#` followed by
    hex digits, otherwise a (lowercased) colour-name lookup; anything
    unrecognised yields the invalid colour. -/
def qcolorFromChars (cs : List Char) : QColor :=
  match cs with
  | '#' :: digits => parseHexColor digits
  | _ =>
      let name := String.mk (cs.map Char.toLower)
      match (qtColorNames.filter (fun p => p.1 = name)).head? with
      | some (_, (r, g, b)) => ⟨true, r, g, b, 255⟩
      | none => QColor.invalid

/-- `QColor(string)` on a Python string. -/
def qcolorFromString (s : String) : QColor := qcolorFromChars s.data

/-- Model of `QColor.name()`: `#rrggbb`, lowercase, alpha dropped. -/
def QColor.name (c : QColor) : String :=
  String.mk ('#' :: (hexByteChars c.r ++ hexByteChars c.g ++ hexByteChars c.b))

/-- Embedded Python values flowing through the Cti protocol. -/
inductive PyVal where
  | str (s : String)
  | int (n : Int)
  | bool (b : Bool)
  | color (c : QColor)
  | none
  deriving Repr, DecidableEq

/-- Python `str()` on the embedded values. -/
def pyStr (v : PyVal) : String :=
  match v with
  | .str s => s
  | .int n => toString n
  | .bool b => if b then "True" else "False"
  | .color c => "QColor" ++ c.name
  | .none => "None"

/-- Python `bool()` (truthiness) on the embedded values. -/
def pyToBool (v : PyVal) : Bool :=
  match v with
  | .str s => s ≠ ""
  | .int n => n ≠ 0
  | .bool b => b
  | .color _ => true
  | .none => false

/-- Integer parsing of a string as Python `int(str)` does: optional
    surrounding spaces, optional sign, then decimal digits. -/
def parseIntChars (cs : List Char) : Except PyErr Int :=
  let trimmed := (cs.dropWhile (· = ' ')).reverse.dropWhile (· = ' ') |>.reverse
  let (sign, digits) : Int × List Char :=
    match trimmed with
    | '-' :: rest => (-1, rest)
    | '+' :: rest => (1, rest)
    | rest => (1, rest)
  if digits ≠ [] ∧ digits.all Char.isDigit then
    .ok (sign * (digits.foldl (fun acc c => acc * 10 + (c.toNat - '0'.toNat)) 0 : Nat))
  else
    .error (.valueError ("invalid literal for int: " ++ String.mk cs))

/-- Python `int()` on the embedded values. -/
def pyToInt (v : PyVal) : Except PyErr Int :=
  match v with
  | .str s => parseIntChars s.data
  | .int n => .ok n
  | .bool b => .ok (if b then 1 else 0)
  | .color _ => .error (.typeError "int() argument must not be QColor")
  | .none => .error (.typeError "int() argument must not be None")

/-! ## Qt editor widgets

Models of the Qt widgets the Cti variants create as editors.  The one
behaviour the code depends on: a `QSpinBox` keeps `value` clamped to
`[minimum, maximum]` (Qt documents `setValue` as clamping out-of-range
input), a `QComboBox.setCurrentIndex` outside the item range resets the
index to -1, and `QLineEdit.setText` truncates to `maxLength`. -/

inductive Editor where
  | lineEdit (text : String) (maxLength : Option Nat) (hasColorValidator : Bool)
  | spinBox (minimum maximum singleStep value : Int)
  | checkBox (checked : Bool)
  | comboBox (items : List String) (currentIndex : Int)
  deriving Repr, DecidableEq

/-- `QSpinBox.setValue`: the value is clamped into `[minimum, maximum]`.
    On a non-spin-box widget the call does not apply (left unchanged;
    the delegate never mixes widgets across variants). -/
def Editor.spinBoxSetValue (ed : Editor) (v : Int) : Editor :=
  match ed with
  | .spinBox lo hi st _ => .spinBox lo hi st (max lo (min hi v))
  | e => e

/-- `QLineEdit.setText`, truncating to the maximum length if one is set. -/
def lineEditSetText (s : String) (maxLength : Option Nat)
    (hasColorValidator : Bool) : Editor :=
  match maxLength with
  | some m => .lineEdit (String.mk (s.data.take m)) maxLength hasColorValidator
  | none => .lineEdit s maxLength hasColorValidator

/-- Qt check-box states (`Qt.Checked` / `Qt.Unchecked` / `Qt.PartiallyChecked`). -/
inductive CheckState where
  | checked
  | unchecked
  | partiallyChecked
  deriving Repr, DecidableEq

/-! ## The Cti variants of `libargos/config/simplectis.py`

Each variant stores its current value in `data` as a dynamic `PyVal`,
as the Python attribute does.  The `enforceDataType` functions embed
the `_enforceDataType` methods of the source; `setData` embeds the
(spec-modelled) `BaseCti.data` property setter that routes every
assignment through `_enforceDataType`. -/

/-- `StringCti._enforceDataType` (simplectis.py lines 61-64): `str(data)`. -/
def StringCti.enforceDataType (v : PyVal) : Except PyErr PyVal :=
  .ok (.str (pyStr v))

/-- `IntegerCti._enforceDataType` (simplectis.py lines 119-122): `int(data)`. -/
def IntegerCti.enforceDataType (v : PyVal) : Except PyErr PyVal :=
  (pyToInt v).map .int

/-- `BoolCti._enforceDataType` (simplectis.py lines 178-181): `bool(data)`. -/
def BoolCti.enforceDataType (v : PyVal) : Except PyErr PyVal :=
  .ok (.bool (pyToBool v))

/-- `ChoiceCti._enforceDataType` (simplectis.py lines 284-287): `int(data)`. -/
def ChoiceCti.enforceDataType (v : PyVal) : Except PyErr PyVal :=
  (pyToInt v).map .int

/-- The `QColor(data)` constructor call on an embedded Python value:
    a string is parsed as a colour specification, a `QColor` is copied. -/
def qcolorCtor (v : PyVal) : Except PyErr QColor :=
  match v with
  | .str s => .ok (qcolorFromString s)
  | .color c => .ok c
  | _ => .error (.typeError "QColor(): argument has unexpected type")

/-- `ColorCti._enforceDataType` (simplectis.py lines 350-356):
    `qColor = QtGui.QColor(data); if not qColor.isValid(): raise
    ValueError(...); return qColor`. -/
def ColorCti.enforceDataType (v : PyVal) : Except PyErr PyVal :=
  (qcolorCtor v).bind fun qColor =>
    if qColor.valid then .ok (.color qColor)
    else .error (.valueError ("Invalid color specification: " ++ pyStr v))

structure StringCti where
  nodeName : String
  data : PyVal
  defaultData : PyVal
  maxLength : Option Nat
  deriving Repr, DecidableEq

structure IntegerCti where
  nodeName : String
  data : PyVal
  defaultData : PyVal
  minValue : Option Int
  maxValue : Option Int
  stepSize : Int
  deriving Repr, DecidableEq

structure BoolCti where
  nodeName : String
  data : PyVal
  defaultData : PyVal
  deriving Repr, DecidableEq

structure ChoiceCti where
  nodeName : String
  data : PyVal
  defaultData : PyVal
  choices : List String
  deriving Repr, DecidableEq

structure ColorCti where
  nodeName : String
  data : PyVal
  defaultData : PyVal
  deriving Repr, DecidableEq

/-- Modelled from the spec: the `BaseCti.data` property setter
    (`basecti.py` is not under src/) — §3: "`data`: current value,
    always coerced to the node's declared type ... enforced by a
    coercion hook every time a value is set". -/
def StringCti.setData (c : StringCti) (v : PyVal) : Except PyErr StringCti :=
  (StringCti.enforceDataType v).map fun w => { c with data := w }

/-- Modelled from the spec: `BaseCti.data` setter, see `StringCti.setData`. -/
def IntegerCti.setData (c : IntegerCti) (v : PyVal) : Except PyErr IntegerCti :=
  (IntegerCti.enforceDataType v).map fun w => { c with data := w }

/-- Modelled from the spec: `BaseCti.data` setter, see `StringCti.setData`. -/
def BoolCti.setData (c : BoolCti) (v : PyVal) : Except PyErr BoolCti :=
  (BoolCti.enforceDataType v).map fun w => { c with data := w }

/-- Modelled from the spec: `BaseCti.data` setter, see `StringCti.setData`. -/
def ChoiceCti.setData (c : ChoiceCti) (v : PyVal) : Except PyErr ChoiceCti :=
  (ChoiceCti.enforceDataType v).map fun w => { c with data := w }

/-- Modelled from the spec: `BaseCti.data` setter, see `StringCti.setData`. -/
def ColorCti.setData (c : ColorCti) (v : PyVal) : Except PyErr ColorCti :=
  (ColorCti.enforceDataType v).map fun w => { c with data := w }

/-- `BoolCti.checkState` getter (simplectis.py lines 200-212): `True`
    maps to checked, `False` to unchecked, `None` to partially checked,
    anything else raises `ValueError`. -/
def BoolCti.checkState (c : BoolCti) : Except PyErr CheckState :=
  match c.data with
  | .bool true => .ok .checked
  | .bool false => .ok .unchecked
  | .none => .ok .partiallyChecked
  | d => .error (.valueError ("Unexpected data: " ++ pyStr d))

/-- `BoolCti.checkState` setter (simplectis.py lines 214-225): assigns
    `True` / `False` / `None` to `self.data`, which routes through the
    coercion hook (`setData`). -/
def BoolCti.setCheckState (c : BoolCti) (cs : CheckState) : Except PyErr BoolCti :=
  match cs with
  | .checked => c.setData (.bool true)
  | .unchecked => c.setData (.bool false)
  | .partiallyChecked => c.setData .none

/-- Python sequence indexing `l[i]` on a list of strings: non-negative
    indices below the length, negative indices from the end, anything
    else raises `IndexError`; a non-integer index raises `TypeError`. -/
def pyListIndex (l : List String) (v : PyVal) : Except PyErr String :=
  match v with
  | .int i =>
      let n : Int := l.length
      if 0 ≤ i ∧ i < n then .ok (l.getD i.toNat "")
      else if -n ≤ i ∧ i < 0 then .ok (l.getD (l.length - (-i).toNat) "")
      else .error (.indexError "list index out of range")
  | _ => .error (.typeError "list indices must be integers")

/-- `ChoiceCti.displayValue` (simplectis.py lines 290-294):
    `str(self.choices[self.data])` (`str` on a string is the identity). -/
def ChoiceCti.displayValue (c : ChoiceCti) : Except PyErr String :=
  pyListIndex c.choices c.data

/-- `ColorCti._dataToJson` (simplectis.py lines 359-363): `qColor.name()`. -/
def ColorCti.dataToJson (qColor : QColor) : String := qColor.name

/-- `ColorCti._dataFromJson` (simplectis.py lines 365-369):
    `QtGui.QColor(json)` — no validity check. -/
def ColorCti.dataFromJson (json : String) : QColor := qcolorFromString json

/-- `ColorCti.displayValue` (simplectis.py lines 372-376):
    `self._data.name().upper()`. -/
def ColorCti.displayValue (c : ColorCti) : Except PyErr String :=
  match c.data with
  | .color q => .ok q.name.toUpper
  | _ => .error (.typeError "data is not a QColor")

/-! ## Editor lifecycle methods of the Cti variants -/

/-- `StringCti.createEditor` (simplectis.py lines 74-81): a `QLineEdit`
    with the node's `maxLength` applied when set. -/
def StringCti.createEditor (c : StringCti) : Editor :=
  .lineEdit "" c.maxLength false

/-- Lower bound of numpy's `iinfo('i')` (32-bit int). -/
def int32Min : Int := -2147483648

/-- Upper bound of numpy's `iinfo('i')` (32-bit int). -/
def int32Max : Int := 2147483647

/-- `IntegerCti.createEditor` (simplectis.py lines 132-149): a
    `QSpinBox` whose minimum/maximum come from `minValue`/`maxValue`
    (int32 bounds when `None`) and whose single step is `stepSize`; a
    fresh `QSpinBox` starts at value 0, clamped into its range. -/
def IntegerCti.createEditor (c : IntegerCti) : Editor :=
  let lo := c.minValue.getD int32Min
  let hi := c.maxValue.getD int32Max
  .spinBox lo hi c.stepSize (max lo (min hi 0))

/-- `BoolCti.createEditor` (simplectis.py lines 228-236): a `QCheckBox`
    (initially unchecked). -/
def BoolCti.createEditor (_c : BoolCti) : Editor :=
  .checkBox false

/-- `ChoiceCti.createEditor` (simplectis.py lines 304-314): a
    `QComboBox` filled with the choices (current index 0 when
    non-empty, -1 when empty), wrapped in a `CtiEditor`; the model
    keeps the combo box, the wrapper's `mainEditor`. -/
def ChoiceCti.createEditor (c : ChoiceCti) : Editor :=
  .comboBox c.choices (if c.choices.isEmpty then -1 else 0)

/-- `ColorCti.createEditor` (simplectis.py lines 386-395): a
    `QLineEdit` carrying a `QRegExpValidator` for the pattern
    `#?[0-9A-F]{6}` (case-insensitive). -/
def ColorCti.createEditor (_c : ColorCti) : Editor :=
  .lineEdit "" Option.none true

/-- `StringCti.setEditorValue` body (simplectis.py lines 84-88):
    `lineEditor.setText(data)`; `setText` requires a string. -/
def StringCti.setEditorValue (editor : Editor) (data : PyVal) :
    Except PyErr Editor :=
  match editor, data with
  | .lineEdit _ ml val, .str s => .ok (lineEditSetText s ml val)
  | .lineEdit _ _ _, _ => .error (.typeError "setText(self, str): argument has unexpected type")
  | _, _ => .error (.typeError "editor is not a QLineEdit")

/-- `IntegerCti.setEditorValue` body (simplectis.py lines 152-155):
    `spinBox.setValue(data)`; the spin box clamps into its range. -/
def IntegerCti.setEditorValue (editor : Editor) (data : PyVal) :
    Except PyErr Editor :=
  match editor, data with
  | .spinBox lo hi st _, .int v => .ok (Editor.spinBoxSetValue (.spinBox lo hi st 0) v)
  | .spinBox _ _ _ _, _ => .error (.typeError "setValue(self, int): argument has unexpected type")
  | _, _ => .error (.typeError "editor is not a QSpinBox")

/-- `BoolCti.setEditorValue` body (simplectis.py lines 239-242):
    `checkBox.setChecked(data)`. -/
def BoolCti.setEditorValue (editor : Editor) (data : PyVal) :
    Except PyErr Editor :=
  match editor, data with
  | .checkBox _, .bool b => .ok (.checkBox b)
  | .checkBox _, _ => .error (.typeError "setChecked(self, bool): argument has unexpected type")
  | _, _ => .error (.typeError "editor is not a QCheckBox")

/-- `ChoiceCti.setEditorValue` body (simplectis.py lines 324-328):
    `comboBox.setCurrentIndex(index)`; an index outside the item range
    resets the current index to -1 (Qt behaviour). -/
def ChoiceCti.setEditorValue (editor : Editor) (data : PyVal) :
    Except PyErr Editor :=
  match editor, data with
  | .comboBox items _, .int i =>
      .ok (.comboBox items (if 0 ≤ i ∧ i < (items.length : Int) then i else -1))
  | .comboBox _ _, _ => .error (.typeError "setCurrentIndex(self, int): argument has unexpected type")
  | _, _ => .error (.typeError "editor is not a QComboBox")

/-- `ColorCti.setEditorValue` body (simplectis.py lines 398-401):
    `lineEditor.setText(qColor.name().upper())`. -/
def ColorCti.setEditorValue (editor : Editor) (data : PyVal) :
    Except PyErr Editor :=
  match editor, data with
  | .lineEdit _ ml val, .color q => .ok (lineEditSetText q.name.toUpper ml val)
  | .lineEdit _ _ _, _ => .error (.typeError "data is not a QColor")
  | _, _ => .error (.typeError "editor is not a QLineEdit")

/-- `StringCti.getEditorValue` (simplectis.py lines 91-95):
    `lineEditor.text()`. -/
def StringCti.getEditorValue (editor : Editor) : Except PyErr PyVal :=
  match editor with
  | .lineEdit t _ _ => .ok (.str t)
  | _ => .error (.typeError "editor is not a QLineEdit")

/-- `IntegerCti.getEditorValue` (simplectis.py lines 158-163):
    `spinBox.interpretText(); return spinBox.value()` — the spin box
    value, always within `[minimum, maximum]`. -/
def IntegerCti.getEditorValue (editor : Editor) : Except PyErr PyVal :=
  match editor with
  | .spinBox _ _ _ v => .ok (.int v)
  | _ => .error (.typeError "editor is not a QSpinBox")

/-- `BoolCti.getEditorValue` (simplectis.py lines 245-248):
    `checkBox.isChecked()`. -/
def BoolCti.getEditorValue (editor : Editor) : Except PyErr PyVal :=
  match editor with
  | .checkBox b => .ok (.bool b)
  | _ => .error (.typeError "editor is not a QCheckBox")

/-- `ChoiceCti.getEditorValue` (simplectis.py lines 331-336):
    `comboBox.currentIndex()` of the wrapped combo box. -/
def ChoiceCti.getEditorValue (editor : Editor) : Except PyErr PyVal :=
  match editor with
  | .comboBox _ i => .ok (.int i)
  | _ => .error (.typeError "editor is not a QComboBox")

/-- Exact match of the regular expression `#?[0-9A-F]{6}`,
    case-insensitive (`QRegExpValidator` reports `Acceptable` exactly
    on a full match). -/
def matchesColorRegExp (cs : List Char) : Bool :=
  match cs with
  | '#' :: digits => digits.length = 6 && digits.all isHexDigitChar
  | digits => digits.length = 6 && digits.all isHexDigitChar

/-- Python `text.startswith('#')`. -/
def startsWithHash (s : String) : Bool :=
  match s.data with
  | '#' :: _ => true
  | _ => false

/-- `if not text.startswith('#'): text = '#' + text`
    (simplectis.py lines 408-409). -/
def prependHash (s : String) : String :=
  if startsWithHash s then s else "#" ++ s

/-- `ColorCti.getEditorValue` (simplectis.py lines 404-417): reads the
    line-edit text, prepends `#` when missing, then asks the editor's
    validator; raises `InvalidInputError` unless it answers
    `Acceptable`. -/
def ColorCti.getEditorValue (editor : Editor) : Except PyErr PyVal :=
  match editor with
  | .lineEdit text0 _ hasValidator =>
      let text := prependHash text0
      if hasValidator ∧ ¬ matchesColorRegExp text.data then
        .error (.invalidInputError ("Invalid input: " ++ text))
      else
        .ok (.str text)
  | _ => .error (.typeError "editor is not a QLineEdit")

/-! ## Uniform dispatch over the five variants -/

inductive AnyCti where
  | string (c : StringCti)
  | integer (c : IntegerCti)
  | bool (c : BoolCti)
  | choice (c : ChoiceCti)
  | color (c : ColorCti)
  deriving Repr, DecidableEq

/-- The node's current `data` attribute. -/
def AnyCti.data (c : AnyCti) : PyVal :=
  match c with
  | .string c => c.data
  | .integer c => c.data
  | .bool c => c.data
  | .choice c => c.data
  | .color c => c.data

/-- The node with its `data` attribute replaced (raw field update, used
    only with already-coerced values). -/
def AnyCti.withData (c : AnyCti) (w : PyVal) : AnyCti :=
  match c with
  | .string c => .string { c with data := w }
  | .integer c => .integer { c with data := w }
  | .bool c => .bool { c with data := w }
  | .choice c => .choice { c with data := w }
  | .color c => .color { c with data := w }

/-- Dynamic dispatch of `_enforceDataType`. -/
def AnyCti.enforceDataType (c : AnyCti) (v : PyVal) : Except PyErr PyVal :=
  match c with
  | .string _ => StringCti.enforceDataType v
  | .integer _ => IntegerCti.enforceDataType v
  | .bool _ => BoolCti.enforceDataType v
  | .choice _ => ChoiceCti.enforceDataType v
  | .color _ => ColorCti.enforceDataType v

/-- Dynamic dispatch of `getEditorValue`. -/
def AnyCti.getEditorValue (c : AnyCti) (editor : Editor) : Except PyErr PyVal :=
  match c with
  | .string _ => StringCti.getEditorValue editor
  | .integer _ => IntegerCti.getEditorValue editor
  | .bool _ => BoolCti.getEditorValue editor
  | .choice _ => ChoiceCti.getEditorValue editor
  | .color _ => ColorCti.getEditorValue editor

/-- Whether the value column of the node is editable: `BoolCti`
    overrides `valueColumnItemFlags` to `Qt.ItemIsUserCheckable` only
    (simplectis.py lines 190-197), so it is not editable; the other
    variants keep the editable default (spec §4.3). -/
def AnyCti.isEditable (c : AnyCti) : Bool :=
  match c with
  | .bool _ => false
  | _ => true

/-- A positional argument of a dynamic Python method call. -/
inductive PyArg where
  | editor (ed : Editor)
  | val (v : PyVal)
  deriving Repr, DecidableEq

/-- The `TypeError` Python raises when `setEditorValue` is called with
    the editor argument only. -/
def missingDataArgErr : PyErr :=
  .typeError "setEditorValue() missing 1 required positional argument: data"

/-- A dynamic positional call `cti.setEditorValue(*args)`.  Every
    variant's `setEditorValue` in simplectis.py has the signature
    `(self, editor, data)`, so binding succeeds only on exactly two
    positional arguments (editor, data); any other arity raises
    `TypeError` before the body runs. -/
def AnyCti.setEditorValueCall (c : AnyCti) (args : List PyArg) :
    Except PyErr Editor :=
  match args with
  | [.editor ed, .val d] =>
      match c with
      | .string _ => StringCti.setEditorValue ed d
      | .integer _ => IntegerCti.setEditorValue ed d
      | .bool _ => BoolCti.setEditorValue ed d
      | .choice _ => ChoiceCti.setEditorValue ed d
      | .color _ => ColorCti.setEditorValue ed d
  | _ => .error missingDataArgErr

/-! ## The delegate of `libargos/widgets/configtreeview.py` and the
     (spec-modelled) model commit -/

/-- Modelled from the spec: `ConfigTreeModel.setData`
    (`configtreemodel.py` is not under src/) — §4.3: "invokes the
    target node's coercion; on success, updates `data` ...; on failure,
    the edit is rejected and the prior value is retained".  The boolean
    reports acceptance. -/
def ConfigTreeModel.setData (c : AnyCti) (value : PyVal) : AnyCti × Bool :=
  match c.enforceDataType value with
  | .ok w => (c.withData w, true)
  | .error _ => (c, false)

/-- `ConfigItemDelegate.setEditorData` (configtreeview.py lines 56-64):
    `cti = index.model().getItem(index); cti.setEditorValue(editor)` —
    a dynamic call passing the editor as the single positional
    argument. -/
def ConfigItemDelegate.setEditorData (c : AnyCti) (editor : Editor) :
    Except PyErr Editor :=
  c.setEditorValueCall [.editor editor]

/-- `ConfigItemDelegate.setModelData` (configtreeview.py lines 69-79):
    `value = cti.getEditorValue(editor); model.setData(index, value,
    QtCore.Qt.EditRole)`. -/
def ConfigItemDelegate.setModelData (c : AnyCti) (editor : Editor) :
    Except PyErr (AnyCti × Bool) :=
  (c.getEditorValue editor).map fun value => ConfigTreeModel.setData c value

/-- Whether `QColor` recognises the string as a colour specification:
    the constructed colour is valid. -/
def recognizedColorSpec (s : String) : Bool := (qcolorFromString s).valid

/-- Modelled from the spec: restoring one node's persisted value during
    `unmarshall` (`BaseCti.unmarshall` is not under src/) — §6:
    "`unmarshall(mapping)` restores state from the same shape"; the
    restored plain value is assigned to `data` and so passes through
    the coercion hook. -/
def ChoiceCti.unmarshallData (c : ChoiceCti) (v : PyVal) : Except PyErr ChoiceCti :=
  c.setData v

/-! ## Helper lemmas -/

theorem AnyCti.data_withData (c : AnyCti) (w : PyVal) :
    (c.withData w).data = w := by
  cases c <;> rfl

theorem startsWithHash_prependHash (s : String) :
    startsWithHash (prependHash s) = true := by
  unfold prependHash
  cases hs : startsWithHash s
  · rw [if_neg (by simp [hs])]
    obtain ⟨l⟩ := s
    rfl
  · rw [if_pos (by simp [hs])]
    exact hs

/-! ## Claim theorems -/

/-- C5: the delegate's `setEditorData` never succeeds: it calls
    `cti.setEditorValue(editor)` with the editor as the only positional
    argument, while every variant's `setEditorValue` signature is
    `(self, editor, data)`, so the call raises `TypeError` for every
    variant before any data reaches the editor. -/
theorem delegate_setEditorData_raises (c : AnyCti) (editor : Editor) :
    ConfigItemDelegate.setEditorData c editor = .error missingDataArgErr :=
  rfl

/-- C2: setting the check state to partially-checked does not store the
    `None` sentinel: the assignment passes through the coercion hook
    and `BoolCti._enforceDataType` turns `None` into `bool(None) =
    False`, so reading `checkState` back yields unchecked, not
    partially-checked. -/
theorem boolCti_partiallyChecked_not_roundtrip (c : BoolCti) :
    BoolCti.setCheckState c .partiallyChecked = .ok { c with data := .bool false } ∧
    BoolCti.checkState { c with data := .bool false } = .ok .unchecked ∧
    PyVal.bool false ≠ PyVal.none :=
  ⟨rfl, rfl, by decide⟩

/-- C9: the delegate's `setModelData` routes the committed value to the
    node only through `getEditorValue` followed by the model's
    `setData`: the result is exactly `setData` applied to the value
    pulled from the editor, and whenever the commit is accepted the
    stored `data` is the node's own coercion of that pulled value,
    while a rejected commit leaves the node unchanged. -/
theorem delegate_setModelData_via_getEditorValue (c : AnyCti) (editor : Editor) :
    ConfigItemDelegate.setModelData c editor
      = (c.getEditorValue editor).map (ConfigTreeModel.setData c) ∧
    ∀ v, c.getEditorValue editor = .ok v →
      ConfigItemDelegate.setModelData c editor = .ok (ConfigTreeModel.setData c v) ∧
      ((∃ w, c.enforceDataType v = .ok w ∧
          (ConfigTreeModel.setData c v).1.data = w ∧
          (ConfigTreeModel.setData c v).2 = true) ∨
        (c.enforceDataType v).isOk = false ∧ ConfigTreeModel.setData c v = (c, false)) := by
  constructor
  · rfl
  · intro v hv
    constructor
    · rw [ConfigItemDelegate.setModelData, hv]
      rfl
    · cases he : c.enforceDataType v with
      | ok w =>
          left
          exact ⟨w, rfl, by rw [ConfigTreeModel.setData, he]; exact AnyCti.data_withData c w,
            by rw [ConfigTreeModel.setData, he]⟩
      | error e =>
          right
          refine ⟨rfl, ?_⟩
          unfold ConfigTreeModel.setData
          rw [he]

/-- Witness for C9 at a concrete commit: an `IntegerCti` holding 6 with
    a spin-box editor holding 4 commits through
    `getEditorValue`/`setData` and stores 4. -/
theorem delegate_setModelData_via_getEditorValue_witness :
    ConfigItemDelegate.setModelData
        (.integer ⟨"i", .int 6, .int 0, some 0, some 10, 2⟩)
        (.spinBox 0 10 2 4)
      = .ok (.integer ⟨"i", .int 4, .int 0, some 0, some 10, 2⟩, true) := by
  have h := (delegate_setModelData_via_getEditorValue
      (.integer ⟨"i", .int 6, .int 0, some 0, some 10, 2⟩)
      (.spinBox 0 10 2 4)).2 (.int 4) rfl
  exact h.1.trans rfl

/-- C4 counterexample: with `minValue=0, maxValue=10, stepSize=2` and
    prior data 6, putting 15 into the editor is clamped by the
    `QSpinBox` to 10 and the commit is accepted, storing 10: the edit
    is neither rejected nor does `data` stay at its prior value 6. -/
theorem integerCti_commit_15_not_rejected :
    Editor.spinBoxSetValue
        (IntegerCti.createEditor ⟨"i", .int 6, .int 0, some 0, some 10, 2⟩) 15
      = .spinBox 0 10 2 10 ∧
    ConfigItemDelegate.setModelData
        (.integer ⟨"i", .int 6, .int 0, some 0, some 10, 2⟩)
        (.spinBox 0 10 2 10)
      = .ok (.integer ⟨"i", .int 10, .int 0, some 0, some 10, 2⟩, true) ∧
    PyVal.int 10 ≠ PyVal.int 6 := by
  refine ⟨by decide, rfl, by decide⟩

/-- C4 (amended): the range bound lives in the editor, not in the
    commit validation — the `QSpinBox` created for `minValue=0,
    maxValue=10, stepSize=2` clamps 15 to 10, and the commit then
    accepts and stores the clamped 10 (so `data` does not remain at its
    prior value); putting 4 into the editor commits and stores 4. -/
theorem integerCti_editor_range_clamps (d : PyVal) :
    Editor.spinBoxSetValue
        (IntegerCti.createEditor ⟨"i", d, .int 0, some 0, some 10, 2⟩) 15
      = .spinBox 0 10 2 10 ∧
    ConfigItemDelegate.setModelData
        (.integer ⟨"i", d, .int 0, some 0, some 10, 2⟩)
        (.spinBox 0 10 2 10)
      = .ok (.integer ⟨"i", .int 10, .int 0, some 0, some 10, 2⟩, true) ∧
    ConfigItemDelegate.setModelData
        (.integer ⟨"i", d, .int 0, some 0, some 10, 2⟩)
        (Editor.spinBoxSetValue
          (IntegerCti.createEditor ⟨"i", d, .int 0, some 0, some 10, 2⟩) 4)
      = .ok (.integer ⟨"i", .int 4, .int 0, some 0, some 10, 2⟩, true) := by
  refine ⟨rfl, rfl, rfl⟩

/-- C6: for every variant, the coercion `_enforceDataType` is
    idempotent on the values it accepts: feeding an accepted result
    back into the same coercion returns it unchanged. -/
theorem enforceDataType_idempotent (v w : PyVal) :
    (StringCti.enforceDataType v = .ok w → StringCti.enforceDataType w = .ok w) ∧
    (IntegerCti.enforceDataType v = .ok w → IntegerCti.enforceDataType w = .ok w) ∧
    (BoolCti.enforceDataType v = .ok w → BoolCti.enforceDataType w = .ok w) ∧
    (ChoiceCti.enforceDataType v = .ok w → ChoiceCti.enforceDataType w = .ok w) ∧
    (ColorCti.enforceDataType v = .ok w → ColorCti.enforceDataType w = .ok w) := by
  refine ⟨?_, ?_, ?_, ?_, ?_⟩
  · intro h
    obtain rfl : w = .str (pyStr v) := by
      simpa [StringCti.enforceDataType] using h.symm
    rfl
  · intro h
    cases hv : pyToInt v with
    | ok n =>
        obtain rfl : w = .int n := by
          simpa [IntegerCti.enforceDataType, hv, Except.map] using h.symm
        rfl
    | error e => simp [IntegerCti.enforceDataType, hv, Except.map] at h
  · intro h
    obtain rfl : w = .bool (pyToBool v) := by
      simpa [BoolCti.enforceDataType] using h.symm
    rfl
  · intro h
    cases hv : pyToInt v with
    | ok n =>
        obtain rfl : w = .int n := by
          simpa [ChoiceCti.enforceDataType, hv, Except.map] using h.symm
        rfl
    | error e => simp [ChoiceCti.enforceDataType, hv, Except.map] at h
  · intro h
    cases hq : qcolorCtor v with
    | ok q =>
        cases hval : q.valid
        · simp [ColorCti.enforceDataType, hq, Except.bind, hval] at h
        · obtain rfl : w = .color q := by
            simpa [ColorCti.enforceDataType, hq, Except.bind, hval] using h.symm
          simp [ColorCti.enforceDataType, qcolorCtor, Except.bind, hval]
    | error e => simp [ColorCti.enforceDataType, hq, Except.bind] at h

/-- Witness for C6 at concrete accepted inputs of each variant. -/
theorem enforceDataType_idempotent_witness :
    StringCti.enforceDataType (.str "12") = .ok (.str "12") ∧
    IntegerCti.enforceDataType (.int 12) = .ok (.int 12) ∧
    BoolCti.enforceDataType (.bool true) = .ok (.bool true) ∧
    ChoiceCti.enforceDataType (.int 12) = .ok (.int 12) ∧
    ColorCti.enforceDataType (.color ⟨true, 26, 43, 60, 255⟩)
      = .ok (.color ⟨true, 26, 43, 60, 255⟩) :=
  ⟨(enforceDataType_idempotent (.str "12") (.str "12")).1 rfl,
   (enforceDataType_idempotent (.str "12") (.int 12)).2.1 rfl,
   (enforceDataType_idempotent (.int 1) (.bool true)).2.2.1 rfl,
   (enforceDataType_idempotent (.str "12") (.int 12)).2.2.2.1 rfl,
   (enforceDataType_idempotent (.str "#1A2B3C") (.color ⟨true, 26, 43, 60, 255⟩)).2.2.2.2
     rfl⟩

/-- C7: when a `ChoiceCti`'s data is a valid index into its choice
    list, `displayValue` is exactly the label stored at that index. -/
theorem choiceCti_displayValue_at_valid_index (c : ChoiceCti) (i : Nat)
    (h1 : c.data = .int i) (h2 : i < c.choices.length) :
    ChoiceCti.displayValue c = .ok (c.choices.getD i "") := by
  have h2' : (i : Int) < (c.choices.length : Int) := by exact_mod_cast h2
  unfold ChoiceCti.displayValue
  rw [h1]
  simp [pyListIndex, Int.ofNat_nonneg i, h2']

/-- Witness for C7: `choices=["a","b","c"]`, `data=1` displays `"b"`. -/
theorem choiceCti_displayValue_at_valid_index_witness :
    ChoiceCti.displayValue ⟨"combo", .int 1, .int 0, ["a", "b", "c"]⟩ = .ok "b" := by
  have h := choiceCti_displayValue_at_valid_index
    ⟨"combo", .int 1, .int 0, ["a", "b", "c"]⟩ 1 rfl (by decide)
  simpa using h

/-- C8: `ColorCti._enforceDataType` on a string raises `ValueError`
    exactly when the string is not a recognised colour specification,
    and on a recognised one returns the (valid) parsed colour. -/
theorem colorCti_enforce_recognized (s : String) :
    (recognizedColorSpec s = true →
      ColorCti.enforceDataType (.str s) = .ok (.color (qcolorFromString s)) ∧
      (qcolorFromString s).valid = true) ∧
    (recognizedColorSpec s = false →
      ColorCti.enforceDataType (.str s)
        = .error (.valueError ("Invalid color specification: " ++ s))) := by
  unfold recognizedColorSpec ColorCti.enforceDataType qcolorCtor
  constructor
  · intro h
    simp [Except.bind, h]
  · intro h
    simp [Except.bind, h, pyStr]

/-- Witness for C8: `"#1A2B3C"` is recognised and coerces to the parsed
    colour; `"zzz"` is not recognised and raises `ValueError`. -/
theorem colorCti_enforce_recognized_witness :
    ColorCti.enforceDataType (.str "#1A2B3C") = .ok (.color ⟨true, 26, 43, 60, 255⟩) ∧
    ColorCti.enforceDataType (.str "zzz")
      = .error (.valueError "Invalid color specification: zzz") := by
  constructor
  · exact ((colorCti_enforce_recognized "#1A2B3C").1 (by decide)).1.trans rfl
  · exact ((colorCti_enforce_recognized "zzz").2 (by decide)).trans rfl

/-- C10: `ColorCti.getEditorValue` prepends a missing `#` before
    validating; it returns exactly the `#`-prefixed text and only when
    that text fully matches `#?[0-9A-F]{6}` (case-insensitive),
    raising `InvalidInputError` otherwise — text that fails validation
    is never returned. -/
theorem colorCti_getEditorValue_validated (t : String) (ml : Option Nat) :
    (∀ v, ColorCti.getEditorValue (.lineEdit t ml true) = .ok v →
        v = .str (prependHash t) ∧ startsWithHash (prependHash t) = true ∧
        matchesColorRegExp (prependHash t).data = true) ∧
    (matchesColorRegExp (prependHash t).data = false →
        ColorCti.getEditorValue (.lineEdit t ml true)
          = .error (.invalidInputError ("Invalid input: " ++ prependHash t))) := by
  cases hm : matchesColorRegExp (prependHash t).data
  · refine ⟨?_, fun _ => ?_⟩
    · intro v hv
      simp [ColorCti.getEditorValue, hm] at hv
    · simp [ColorCti.getEditorValue, hm]
  · refine ⟨?_, fun h => ?_⟩
    · intro v hv
      simp [ColorCti.getEditorValue, hm] at hv
      exact ⟨hv.symm, startsWithHash_prependHash t, rfl⟩
    · exact absurd h (by decide)

/-- Witness for C10: editor text `"1A2B3C"` gains the `#` and passes
    validation; editor text `"12345"` fails validation and raises. -/
theorem colorCti_getEditorValue_validated_witness :
    ColorCti.getEditorValue (.lineEdit "1A2B3C" none true) = .ok (.str "#1A2B3C") ∧
    startsWithHash "#1A2B3C" = true ∧
    ColorCti.getEditorValue (.lineEdit "12345" none true)
      = .error (.invalidInputError "Invalid input: #12345") := by
  refine ⟨rfl, ?_, ?_⟩
  · have h := (colorCti_getEditorValue_validated "1A2B3C" none).1 (.str "#1A2B3C") rfl
    simpa using h.2.1
  · have h := (colorCti_getEditorValue_validated "12345" none).2 (by decide)
    simpa using h

/-- C3 counterexample: unmarshalling index 5 into a 3-element choice
    list does not fail — it is accepted and silently stored. -/
theorem choiceCti_unmarshall_out_of_range_accepted :
    ChoiceCti.unmarshallData ⟨"combo", .int 1, .int 0, ["a", "b", "c"]⟩ (.int 5)
      = .ok ⟨"combo", .int 5, .int 0, ["a", "b", "c"]⟩ := rfl

/-- C3 (amended): `ChoiceCti`'s coercion is `int()` alone, with no
    range check, so any integer index — in or out of range — is
    accepted and stored by unmarshalling; the failure only surfaces
    later, when `displayValue` indexes the choice list and raises
    `IndexError` for an index at or beyond its length. -/
theorem choiceCti_index_not_range_checked (c : ChoiceCti) (n : Int) :
    ChoiceCti.unmarshallData c (.int n) = .ok { c with data := .int n } ∧
    ((c.choices.length : Int) ≤ n →
      ChoiceCti.displayValue { c with data := .int n }
        = .error (.indexError "list index out of range")) := by
  constructor
  · rfl
  · intro h
    have h1 : ¬ ((0 : Int) ≤ n ∧ n < (c.choices.length : Int)) := by omega
    have h2 : ¬ (-(c.choices.length : Int) ≤ n ∧ n < 0) := by omega
    unfold ChoiceCti.displayValue
    simp [pyListIndex, h1, h2]

/-- Witness for C3 (amended): index 7 into a 2-element list is stored
    by unmarshalling, and `displayValue` then raises `IndexError`. -/
theorem choiceCti_index_not_range_checked_witness :
    ChoiceCti.unmarshallData ⟨"c2", .int 0, .int 0, ["x", "y"]⟩ (.int 7)
      = .ok ⟨"c2", .int 7, .int 0, ["x", "y"]⟩ ∧
    ChoiceCti.displayValue ⟨"c2", .int 7, .int 0, ["x", "y"]⟩
      = .error (.indexError "list index out of range") := by
  have h := choiceCti_index_not_range_checked ⟨"c2", .int 0, .int 0, ["x", "y"]⟩ 7
  exact ⟨h.1, by simpa using h.2 (by decide)⟩

/-- C1 counterexample: the colour parsed from `"#1A2B3C"` marshals to
    the lowercase string `"#1a2b3c"` (`QColor.name()`), not to the
    uppercase `"#1A2B3C"` the claim states. -/
theorem colorCti_marshal_not_uppercase :
    ColorCti.enforceDataType (.str "#1A2B3C") = .ok (.color ⟨true, 26, 43, 60, 255⟩) ∧
    ColorCti.dataToJson ⟨true, 26, 43, 60, 255⟩ = "#1a2b3c" ∧
    ("#1a2b3c" : String) ≠ "#1A2B3C" :=
  ⟨rfl, rfl, by decide⟩

/-- Behaviour of `hexDigitChar` below 16: a lowercase hex digit whose
    value reads back. -/
theorem hexDigitChar_spec : ∀ m, m < 16 →
    isHexDigitChar (hexDigitChar m) = true ∧ (hexDigitChar m).isUpper = false ∧
    hexVal (hexDigitChar m) = m := by decide

/-- Behaviour of `hexByteChars` below 256: two lowercase hex digits
    encoding the byte. -/
theorem hexByteChars_spec (n : Nat) (h : n < 256) :
    (hexByteChars n).all isHexDigitChar = true ∧
    (∀ ch ∈ hexByteChars n, ch.isUpper = false) ∧
    hexPairVal (hexDigitChar (n / 16)) (hexDigitChar (n % 16)) = n := by
  have hdiv : n / 16 < 16 := by omega
  have hmod : n % 16 < 16 := by omega
  obtain ⟨d1, u1, v1⟩ := hexDigitChar_spec (n / 16) hdiv
  obtain ⟨d2, u2, v2⟩ := hexDigitChar_spec (n % 16) hmod
  refine ⟨?_, ?_, ?_⟩
  · simp [hexByteChars, d1, d2]
  · intro ch hch
    simp [hexByteChars] at hch
    rcases hch with rfl | rfl
    · exact u1
    · exact u2
  · unfold hexPairVal
    rw [v1, v2]
    omega

/-- Parsing back the six lowercase hex digits `QColor.name` produced
    recovers the byte components (alpha resets to opaque). -/
theorem parseHexColor_hexBytes (r g b : Nat)
    (hr : r < 256) (hg : g < 256) (hb : b < 256) :
    parseHexColor (hexByteChars r ++ hexByteChars g ++ hexByteChars b)
      = ⟨true, r, g, b, 255⟩ := by
  obtain ⟨alr, _, vr⟩ := hexByteChars_spec r hr
  obtain ⟨alg, _, vg⟩ := hexByteChars_spec g hg
  obtain ⟨alb, _, vb⟩ := hexByteChars_spec b hb
  have hall : ((hexByteChars r ++ hexByteChars g ++ hexByteChars b).all
      isHexDigitChar) = true := by
    simp only [List.all_append, alr, alg, alb, Bool.and_self]
  unfold parseHexColor
  rw [if_neg (not_not_intro hall)]
  simp only [hexByteChars, List.cons_append, List.nil_append]
  rw [show hexPairVal (hexDigitChar (r / 16)) (hexDigitChar (r % 16)) = r from vr,
    show hexPairVal (hexDigitChar (g / 16)) (hexDigitChar (g % 16)) = g from vg,
    show hexPairVal (hexDigitChar (b / 16)) (hexDigitChar (b % 16)) = b from vb]

/-- C1 (amended): marshalling a `ColorCti`'s colour produces the
    canonical lowercase hex form `#rrggbb` (it is `displayValue` that
    is uppercase), and unmarshalling that string yields a colour that
    marshals to the identical string: marshall–unmarshall–marshall is
    value-identical. -/
theorem colorCti_marshall_lowercase_roundtrip (c : QColor)
    (hr : c.r < 256) (hg : c.g < 256) (hb : c.b < 256) :
    (ColorCti.dataToJson c).data
      = '#' :: (hexByteChars c.r ++ hexByteChars c.g ++ hexByteChars c.b) ∧
    (∀ ch ∈ (ColorCti.dataToJson c).data, ch.isUpper = false) ∧
    ColorCti.dataToJson (ColorCti.dataFromJson (ColorCti.dataToJson c))
      = ColorCti.dataToJson c := by
  obtain ⟨val, r, g, b, a⟩ := c
  obtain ⟨_, lowr, _⟩ := hexByteChars_spec r hr
  obtain ⟨_, lowg, _⟩ := hexByteChars_spec g hg
  obtain ⟨_, lowb, _⟩ := hexByteChars_spec b hb
  refine ⟨rfl, ?_, ?_⟩
  · intro ch hch
    have hmem : ch = '#' ∨ ch ∈ hexByteChars r ∨ ch ∈ hexByteChars g ∨
        ch ∈ hexByteChars b := by
      simpa [ColorCti.dataToJson, QColor.name, List.mem_append, or_assoc] using hch
    rcases hmem with rfl | h | h | h
    · rfl
    · exact lowr ch h
    · exact lowg ch h
    · exact lowb ch h
  · have hparse : ColorCti.dataFromJson (ColorCti.dataToJson ⟨val, r, g, b, a⟩)
        = ⟨true, r, g, b, 255⟩ := by
      show qcolorFromChars
        ((String.mk ('#' :: (hexByteChars r ++ hexByteChars g ++ hexByteChars b))).data)
        = ⟨true, r, g, b, 255⟩
      show parseHexColor (hexByteChars r ++ hexByteChars g ++ hexByteChars b)
        = ⟨true, r, g, b, 255⟩
      exact parseHexColor_hexBytes r g b hr hg hb
    rw [hparse]
    rfl

/-- Witness for C1 (amended) at the colour `#1A2B3C`: the marshalled
    string is lowercase `"#1a2b3c"` and survives the round trip. -/
theorem colorCti_marshall_lowercase_roundtrip_witness :
    ColorCti.dataToJson ⟨true, 26, 43, 60, 255⟩ = "#1a2b3c" ∧
    ColorCti.dataToJson (ColorCti.dataFromJson
      (ColorCti.dataToJson ⟨true, 26, 43, 60, 255⟩))
      = ColorCti.dataToJson ⟨true, 26, 43, 60, 255⟩ := by
  have h := colorCti_marshall_lowercase_roundtrip ⟨true, 26, 43, 60, 255⟩
    (by decide) (by decide) (by decide)
  exact ⟨rfl, h.2.2⟩

end Argos
